import Mathlib

/-!
Verification of the Coddy V2 session-relay subsystem
(`Coddy/ui/react-app/src/App.js`): a shallow embedding of the
`ws.onmessage` frame handling, the `handleCommandSubmit` command router,
and the WebSocket reconnect lifecycle, with theorems about the
spec's claims over these definitions.
-/

namespace Coddy

/-- A line of the terminal transcript: the objects pushed onto
`terminalOutput` in `App.js` (`{ type: ..., text: ... }`). -/
structure TranscriptLine where
  type : String
  text : String
deriving DecidableEq, Repr

/-- JS `a || b` where `a` is an optional string field: `undefined`
(modelled `none`) and `""` are falsy. -/
def jsOr : Option String → String → String
  | some s, d => if s = "" then d else s
  | none, d => d

/-- JS `a || b` on plain strings: `""` is falsy. -/
def jsOrS (s d : String) : String :=
  if s = "" then d else s

/-- JS truthiness of an optional string (`undefined` and `""` are falsy). -/
def jsTruthy : Option String → Bool
  | some s => s != ""
  | none => false

/-- One inbound payload, as seen by `ws.onmessage` (App.js lines 45-62):
either `JSON.parse(event.data)` fails (`raw`, carrying `event.data`),
or it succeeds, yielding an object whose optional `type` and `text`
fields are recorded together with the raw `event.data` string
(`none` models an absent field). -/
inductive Payload where
  | raw (data : String)
  | msg (data : String) (type : Option String) (text : Option String)
deriving DecidableEq, Repr

/-- A decoded inbound frame: the `{type, text}` pair the handler appends. -/
structure InboundFrame where
  kind : String
  text : String
deriving DecidableEq, Repr

/-- The frame `ws.onmessage` computes from one payload (App.js lines 45-62):
on JSON parse failure `{type: 'log', text: event.data}`; on success
`{type: message.type || 'log', text: message.text || event.data}`. -/
def decode : Payload → InboundFrame
  | .raw d => ⟨"log", d⟩
  | .msg d t x => ⟨jsOr t "log", jsOr x d⟩

/-- ASCII lowering of one character, modelling JS `toLowerCase` on the
ASCII range (the only range the router compares against). -/
def lowerChar (c : Char) : Char :=
  if 'A' ≤ c && c ≤ 'Z' then Char.ofNat (c.toNat + 32) else c

/-- JS `String.prototype.toLowerCase`, modelled on the ASCII range. -/
def jsToLower (s : String) : String := ⟨s.data.map lowerChar⟩

/-- JS `String.prototype.trim`: strip leading and trailing whitespace. -/
def jsTrim (s : String) : String :=
  ⟨((s.data.dropWhile Char.isWhitespace).reverse.dropWhile Char.isWhitespace).reverse⟩

/-- Split a character list at every occurrence of `sep`, keeping empty
segments, as JS `split` does (`"".split(' ')` is `[""]`). -/
def splitChar (sep : Char) : List Char → List (List Char)
  | [] => [[]]
  | c :: cs =>
      let r := splitChar sep cs
      if c = sep then [] :: r
      else
        match r with
        | [] => [[c]]
        | t :: ts => (c :: t) :: ts

/-- JS `command.split(' ')` (App.js line 149). -/
def jsSplitSpace (s : String) : List String := (splitChar ' ' s.data).map fun l => ⟨l⟩

/-- JS `.replace(/"/g, '')` (App.js line 168): drop every double quote. -/
def removeQuotes (s : String) : String := ⟨s.data.filter fun c => c != '\"'⟩

/-- Outbound relay frame: `JSON.stringify({ type: 'cli_input', command })`
sent on the WebSocket (App.js line 159), modelled structurally. -/
structure OutboundFrame where
  type : String
  command : String
deriving DecidableEq, Repr

/-- The checkpoint record the UI persists:
`JSON.stringify({ type: 'checkpoint', name, message })` (App.js line 177),
modelled structurally. -/
structure CheckpointContent where
  type : String
  name : String
  message : String
deriving DecidableEq, Repr

/-- Body of the direct `POST /api/memory` call made by the checkpoint
carve-out (App.js lines 176-181). The backend route
(`Coddy/backend/server.js`, `app.post('/api/memory')`) destructures
exactly these four fields. -/
structure MemoryBody where
  content : CheckpointContent
  tags : List String
  session_id : String
  user_id : String
deriving DecidableEq, Repr

/-- One primitive effect performed by the App handlers, in program order. -/
inductive Event where
  | append (line : TranscriptLine)
  | setStatus (msg : Option String)
  | setCommandInput (v : String)
  | send (frame : OutboundFrame)
  | post (body : MemoryBody)
  | refreshMemory
deriving DecidableEq, Repr

/-- The reactive state the handlers read and write. `wsOpen` abstracts
`wsRef.current && wsRef.current.readyState === WebSocket.OPEN`
(App.js line 156); `statusMessage` is an `Option` because
`setStatusMessage(message.text)` can store JS `undefined`. -/
structure AppState where
  terminalOutput : List TranscriptLine
  statusMessage : Option String
  commandInput : String
  wsOpen : Bool
deriving DecidableEq, Repr

/-- Apply one effect to the reactive state. `send`, `post` and
`refreshMemory` are interactions with the outside world and leave the
state alone (the router reads their outcome through its arguments). -/
def applyEvent (s : AppState) : Event → AppState
  | .append l => { s with terminalOutput := s.terminalOutput ++ [l] }
  | .setStatus m => { s with statusMessage := m }
  | .setCommandInput v => { s with commandInput := v }
  | .send _ => s
  | .post _ => s
  | .refreshMemory => s

/-- Replay a list of effects. -/
def run (s : AppState) (es : List Event) : AppState := es.foldl applyEvent s

/-- The effects of `ws.onmessage` for one payload (App.js lines 45-62):
the decoded frame is always appended to `terminalOutput` (line 53), and
when `message.type === 'status'` the handler additionally runs
`setStatusMessage(message.text)` (lines 55-57) with the unfallback-ed
`message.text`. A parse failure appends `{type: 'log', text: event.data}`
(line 60). -/
def onmessageEvents : Payload → List Event
  | .raw d => [.append ⟨"log", d⟩]
  | .msg d t x =>
      .append ⟨jsOr t "log", jsOr x d⟩ ::
        (if t = some "status" then [.setStatus x] else [])

/-- State effect of `ws.onmessage` for one payload. -/
def onmessage (s : AppState) (p : Payload) : AppState := run s (onmessageEvents p)

/-- State effect of a sequence of inbound payloads, in arrival order. -/
def onFrames (s : AppState) (ps : List Payload) : AppState := ps.foldl onmessage s

/-- The `checkpoint … save` test of App.js line 166:
`mainCommand === 'checkpoint' && parts[1] && parts[1].toLowerCase() === 'save'`,
where `mainCommand = parts[0].toLowerCase()` (line 150). -/
def isCheckpointSave (parts : List String) : Bool :=
  jsToLower (parts.headD "") == "checkpoint" && jsTruthy parts[1]?
    && jsToLower (parts[1]?.getD "") == "save"

/-- The sequence of effects `handleCommandSubmit` performs
(App.js lines 131-215) on input `input`, with the channel openness
`wsOpen` and the outcome `r` of the direct `POST /api/memory`
interaction: `.ok ()` when the `fetch`, the `response.ok` check and
`response.json()` all succeed, `.error m` when any of them throws an
exception whose message is `m` (the `post` event records that the call
was issued; `r` is only consulted on the path that issues it). -/
def handleEvents (wsOpen : Bool) (input : String) (r : Except String Unit) : List Event :=
  if jsTrim input = "" then []
  else
    let command := jsTrim input
    let parts := jsSplitSpace command
    let pre : List Event := [.setCommandInput "", .setStatus (some "Executing command...")]
    if wsOpen then
      let base : List Event := pre ++
        [.send ⟨"cli_input", command⟩,
         .append ⟨"command", "Coddy> " ++ command⟩,
         .setStatus (some "Command sent to Python CLI for execution.")]
      if isCheckpointSave parts then
        let checkpointName := parts[2]?
        let message := jsTrim (removeQuotes (String.intercalate " " (parts.drop 3)))
        if !jsTruthy checkpointName then
          base ++
            [.append ⟨"error", "Usage: checkpoint save <name> [message]"⟩,
             .setStatus (some "Invalid checkpoint command.")]
        else
          let name := checkpointName.getD ""
          let body : MemoryBody :=
            { content := ⟨"checkpoint", name,
                jsOrS message ("Checkpoint " ++ name ++ " saved.")⟩,
              tags := ["checkpoint", name],
              session_id := "ui_session",
              user_id := "ui_user" }
          match r with
          | .ok _ =>
              base ++
                [.post body,
                 .append ⟨"success", "Checkpoint \x27" ++ name ++ "\x27 saved via UI API."⟩,
                 .setStatus (some "Command executed successfully."),
                 .refreshMemory]
          | .error emsg =>
              let errorMessage := "Failed to save checkpoint \x27" ++ name ++ "\x27 via UI API."
              base ++
                [.post body,
                 .append ⟨"error", "Error: " ++ jsOrS errorMessage emsg⟩,
                 .setStatus (some ("Command failed: " ++ emsg))]
      else base
    else
      pre ++
        [.append ⟨"error", "WebSocket connection not active. Cannot send command to Python CLI."⟩,
         .setStatus (some "WS not connected.")]

/-- `handleCommandSubmit` as a state transformer, returning the new state
and the effect trace. -/
def handle (s : AppState) (input : String) (r : Except String Unit) : AppState × List Event :=
  let es := handleEvents s.wsOpen input r
  (run s es, es)

/-- The relay sends of a trace. -/
def sends (es : List Event) : List OutboundFrame :=
  es.filterMap fun e => match e with | .send f => some f | _ => none

/-- The direct `POST /api/memory` calls of a trace. -/
def posts (es : List Event) : List MemoryBody :=
  es.filterMap fun e => match e with | .post b => some b | _ => none

/-- The transcript lines appended by a trace, in order. -/
def appends (es : List Event) : List TranscriptLine :=
  es.filterMap fun e => match e with | .append l => some l | _ => none

/-- The appended transcript lines of one category. -/
def appendsOf (cat : String) (es : List Event) : List TranscriptLine :=
  (appends es).filter fun l => l.type == cat

/-- How many times the trace refreshes the cached `/api/memory` view. -/
def refreshCount (es : List Event) : Nat :=
  (es.filter fun e => match e with | .refreshMemory => true | _ => false).length

/-- `needle` occurs as a contiguous substring of `hay`. -/
def strContains (hay needle : String) : Prop := needle.data <:+: hay.data

/-! ## The WebSocket reconnect lifecycle (App.js lines 34-92)

A connection is created by `connectWebSocket` with fresh handlers; its
`onclose` handler (which runs `setTimeout(connectWebSocket, 5000)`,
line 78) stays attached unless the effect cleanup nulls it (line 87).
`wsRef.current` is written only in `ws.onopen` (line 41). The cleanup
(lines 85-91) nulls `wsRef.current.onclose` and closes that socket, but
clears no pending reconnect timer and touches no socket that has not
reached `onopen`. -/

/-- Lifecycle phase of one WebSocket object. -/
inductive ConnStatus where
  | connecting
  | opened
  | closed
deriving DecidableEq, Repr

/-- One WebSocket object: its phase and whether the reconnect-scheduling
`onclose` handler is still attached. -/
structure Conn where
  status : ConnStatus
  oncloseActive : Bool
deriving DecidableEq, Repr

/-- The session state of the WebSocket effect: `conns` indexed by creation
order, `wsRefCurrent` mirrors `wsRef.current`, `pendingDelays` holds the
delay of each outstanding `setTimeout(connectWebSocket, 5000)` timer,
`tornDown` records that the effect cleanup ran, and
`connectsAfterTeardown` counts `connectWebSocket` invocations occurring
after the cleanup. -/
structure WSState where
  conns : List Conn
  wsRefCurrent : Option Nat
  pendingDelays : List Nat
  tornDown : Bool
  connectsAfterTeardown : Nat
deriving DecidableEq, Repr

/-- `connectWebSocket()` (App.js lines 35-80): create a new socket in
`connecting` phase with its `onclose` handler attached. -/
def connectStep (s : WSState) : WSState :=
  { s with conns := s.conns ++ [⟨.connecting, true⟩],
           connectsAfterTeardown :=
             s.connectsAfterTeardown + (if s.tornDown then 1 else 0) }

/-- Environment events driving the lifecycle: a socket's `onopen` or close
event firing, a pending reconnect timer firing, or the React effect
cleanup running. Events that do not apply to the current state (unknown
index, wrong phase, no pending timer, repeated teardown) are no-ops. -/
inductive WSEvent where
  | opens (i : Nat)
  | closes (i : Nat)
  | timerFire
  | teardown
deriving DecidableEq, Repr

/-- One lifecycle step.
`opens i`: `ws.onopen` (lines 39-43) stores the socket in `wsRef.current`.
`closes i`: the socket's close event; if its `onclose` handler is still
attached it schedules `setTimeout(connectWebSocket, 5000)` (line 78).
`timerFire`: a pending timer fires and runs `connectWebSocket`.
`teardown`: the cleanup (lines 85-91) nulls `wsRef.current.onclose` (when
`wsRef.current` is set) and closes that socket; it cancels no pending
timer. -/
def wsStep (s : WSState) : WSEvent → WSState
  | .opens i =>
      match s.conns.get? i with
      | some c =>
          if c.status = .connecting then
            { s with conns := s.conns.set i { c with status := .opened },
                     wsRefCurrent := some i }
          else s
      | none => s
  | .closes i =>
      match s.conns.get? i with
      | some c =>
          if c.status ≠ .closed then
            let s1 := { s with conns := s.conns.set i { c with status := .closed } }
            if c.oncloseActive then
              { s1 with pendingDelays := s1.pendingDelays ++ [5000] }
            else s1
          else s
      | none => s
  | .timerFire =>
      match s.pendingDelays with
      | [] => s
      | _ :: rest => connectStep { s with pendingDelays := rest }
  | .teardown =>
      if s.tornDown then s
      else
        let s1 := { s with tornDown := true }
        match s1.wsRefCurrent with
        | some i =>
            match s1.conns.get? i with
            | some c => { s1 with conns := s1.conns.set i { c with status := .closed, oncloseActive := false } }
            | none => s1
        | none => s1

/-- Replay a sequence of lifecycle events. -/
def wsRun (s : WSState) (es : List WSEvent) : WSState := es.foldl wsStep s

/-- The state right after the effect body runs `connectWebSocket()` once
(App.js line 82). -/
def wsInit : WSState := connectStep ⟨[], none, [], false, 0⟩

/-! ## Shared lemmas -/

/-- A successfully parsed message with a non-empty `type` and a non-empty
`text` is appended to the transcript as one line carrying exactly that
type and text, whatever the type is. -/
theorem onmessage_msg_output (s : AppState) (d k t : String) (hk : k ≠ "") (ht : t ≠ "") :
    (onmessage s (.msg d (some k) (some t))).terminalOutput = s.terminalOutput ++ [⟨k, t⟩] := by
  by_cases hst : k = "status" <;>
    simp [onmessage, onmessageEvents, run, applyEvent, jsOr, hk, ht, hst]

/-- A string starting with a non-empty literal chunk is non-empty. -/
theorem string_append_ne_empty (a b : String) (h : a.data ≠ []) : a ++ b ≠ "" := by
  intro hc
  apply h
  have hd := congrArg String.data hc
  simp only [String.data_append] at hd
  exact (List.append_eq_nil.mp hd).1

/-! ## Claims -/

/-- Claim C1, counterexample: the code appends a `status` frame to the
transcript (App.js line 53 runs for every parsed message), so for the
concrete well-formed status frame with text `"All good"` the transcript
does change, contradicting the claim that it stays unchanged. -/
theorem C1_counterexample :
    (onmessage (⟨[], some "", "", true⟩ : AppState)
        (.msg "\x7b\x22type\x22: \x22status\x22, \x22text\x22: \x22All good\x22\x7d" (some "status") (some "All good"))).terminalOutput
      = [⟨"status", "All good"⟩] ∧
    (onmessage (⟨[], some "", "", true⟩ : AppState)
        (.msg "\x7b\x22type\x22: \x22status\x22, \x22text\x22: \x22All good\x22\x7d" (some "status") (some "All good"))).terminalOutput
      ≠ (⟨[], some "", "", true⟩ : AppState).terminalOutput := by
  decide

/-- Claim C1, amended: for every well-formed inbound `status` frame the
Status Indicator is set to the frame's text, and additionally exactly one
`status`-category TranscriptLine with that text is appended to the
transcript (the transcript is not left unchanged). -/
theorem C1_status_frame (s : AppState) (d txt : String) (h : txt ≠ "") :
    onmessage s (.msg d (some "status") (some txt)) =
      { s with terminalOutput := s.terminalOutput ++ [⟨"status", txt⟩],
               statusMessage := some txt } := by
  simp [onmessage, onmessageEvents, run, applyEvent, jsOr, h]

/-- Witness for C1: the amended statement at a concrete status frame. -/
theorem C1_witness :
    onmessage (⟨[], some "", "", true⟩ : AppState) (.msg "d" (some "status") (some "Ready")) =
      (⟨[⟨"status", "Ready"⟩], some "Ready", "", true⟩ : AppState) := by
  have h := C1_status_frame (⟨[], some "", "", true⟩ : AppState) "d" "Ready" (by decide)
  exact h

/-- Claim C4: a payload that fails structured parsing decodes to
`{kind: "log", text: raw payload}` (and `decode` is total, so no
exception reaches the caller). -/
theorem C4_decode_fallback (d : String) : decode (.raw d) = ⟨"log", d⟩ := rfl

/-- Claim C7: well-formed inbound frames whose kind is one of
command/info/success/error/log each append exactly one TranscriptLine
with matching category and text, in arrival order. Frames are given as
(raw payload, kind, text) triples. -/
theorem C7_append_in_order (s : AppState) (frames : List (String × String × String))
    (hk : ∀ f ∈ frames, f.2.1 ∈ (["command", "info", "success", "error", "log"] : List String))
    (ht : ∀ f ∈ frames, f.2.2 ≠ "") :
    (onFrames s (frames.map fun f => .msg f.1 (some f.2.1) (some f.2.2))).terminalOutput
      = s.terminalOutput ++ frames.map fun f => (⟨f.2.1, f.2.2⟩ : TranscriptLine) := by
  induction frames generalizing s with
  | nil => simp [onFrames]
  | cons f fs ih =>
      obtain ⟨d, k, t⟩ := f
      have hk0 : k ∈ (["command", "info", "success", "error", "log"] : List String) :=
        hk (d, k, t) (by simp)
      have ht0 : t ≠ "" := ht (d, k, t) (by simp)
      have hkne : k ≠ "" := by
        simp only [List.mem_cons, List.not_mem_nil, or_false] at hk0
        rcases hk0 with rfl | rfl | rfl | rfl | rfl <;> decide
      have hstep := onmessage_msg_output s d k t hkne ht0
      have hrec := ih (onmessage s (.msg d (some k) (some t)))
        (fun g hg => hk g (List.mem_cons_of_mem _ hg))
        (fun g hg => ht g (List.mem_cons_of_mem _ hg))
      calc (onFrames s (((d, k, t) :: fs).map fun f => Payload.msg f.1 (some f.2.1) (some f.2.2))).terminalOutput
          = (onFrames (onmessage s (.msg d (some k) (some t)))
              (fs.map fun f => Payload.msg f.1 (some f.2.1) (some f.2.2))).terminalOutput := rfl
        _ = (onmessage s (.msg d (some k) (some t))).terminalOutput
              ++ fs.map (fun f => (⟨f.2.1, f.2.2⟩ : TranscriptLine)) := hrec
        _ = s.terminalOutput ++ ((d, k, t) :: fs).map (fun f => (⟨f.2.1, f.2.2⟩ : TranscriptLine)) := by
              rw [hstep]; simp

/-- Witness for C7: two concrete well-formed frames append two matching
lines in arrival order. -/
theorem C7_witness :
    (onFrames (⟨[], some "", "", true⟩ : AppState)
        ([("a", "info", "one"), ("b", "error", "two")].map
          fun f => Payload.msg f.1 (some f.2.1) (some f.2.2))).terminalOutput
      = [⟨"info", "one"⟩, ⟨"error", "two"⟩] := by
  have h := C7_append_in_order (⟨[], some "", "", true⟩ : AppState)
    [("a", "info", "one"), ("b", "error", "two")] (by decide) (by decide)
  exact h

/-- Claim C9: blank or whitespace-only input is a no-op, no matter how
often it is submitted: no transcript line, no send, state unchanged. -/
theorem C9_blank_noop (s : AppState) (input : String) (r : Except String Unit) (n : Nat)
    (h : jsTrim input = "") :
    handle s input r = (s, []) ∧ (fun st => (handle st input r).1)^[n] s = s := by
  have hh : ∀ st : AppState, handle st input r = (st, []) := by
    intro st
    simp [handle, handleEvents, h, run]
  refine ⟨hh s, ?_⟩
  induction n with
  | zero => rfl
  | succ m ihm =>
      rw [Function.iterate_succ_apply', ihm, hh s]

/-- Witness for C9: five submissions of `"   "` leave the state alone. -/
theorem C9_witness :
    handle (⟨[], some "", "", true⟩ : AppState) "   " (.ok ()) = ((⟨[], some "", "", true⟩ : AppState), []) ∧
    (fun st => (handle st "   " (.ok ())).1)^[5] (⟨[], some "", "", true⟩ : AppState) =
      (⟨[], some "", "", true⟩ : AppState) :=
  C9_blank_noop (⟨[], some "", "", true⟩ : AppState) "   " (.ok ()) 5 (by decide)

/-- Claim C6: a non-blank line handled while the channel is not open
appends exactly one error line saying the channel is unavailable, and
performs no relay send, no direct resource call and no memory refresh. -/
theorem C6_closed_channel (s : AppState) (line : String) (r : Except String Unit)
    (hclosed : s.wsOpen = false) (hne : jsTrim line ≠ "") :
    appends (handle s line r).2 =
      [⟨"error", "WebSocket connection not active. Cannot send command to Python CLI."⟩] ∧
    sends (handle s line r).2 = [] ∧
    posts (handle s line r).2 = [] ∧
    refreshCount (handle s line r).2 = 0 := by
  simp [handle, handleEvents, hclosed, hne, appends, sends, posts, refreshCount]

/-- Witness for C6: `"list files"` on a closed channel. -/
theorem C6_witness :
    appends (handle (⟨[], some "", "", false⟩ : AppState) "list files" (.ok ())).2 =
      [⟨"error", "WebSocket connection not active. Cannot send command to Python CLI."⟩] ∧
    sends (handle (⟨[], some "", "", false⟩ : AppState) "list files" (.ok ())).2 = [] ∧
    posts (handle (⟨[], some "", "", false⟩ : AppState) "list files" (.ok ())).2 = [] ∧
    refreshCount (handle (⟨[], some "", "", false⟩ : AppState) "list files" (.ok ())).2 = 0 :=
  C6_closed_channel (⟨[], some "", "", false⟩ : AppState) "list files" (.ok ()) rfl (by decide)

/-- Claim C5, counterexample: a user line with surrounding whitespace is
not relayed unmodified — the code sends `commandInput.trim()` (App.js
lines 135 and 159), so for `" foo bar "` the outbound command is
`"foo bar"`, not the raw line. -/
theorem C5_counterexample :
    sends (handle (⟨[], some "", "", true⟩ : AppState) " foo bar " (.ok ())).2 =
      [⟨"cli_input", "foo bar"⟩] ∧
    sends (handle (⟨[], some "", "", true⟩ : AppState) " foo bar " (.ok ())).2 ≠
      [⟨"cli_input", " foo bar "⟩] := by
  decide

/-- Claim C5, amended: every non-blank user line produces exactly one
outbound frame `{type: "cli_input", command: trimmed line}`; whenever the
line carries no surrounding whitespace (so trimming leaves it alone) the
command is the raw line unmodified — in particular the command for
`"foo bar"` is exactly `"foo bar"`. -/
theorem C5_relay_frame (s : AppState) (line : String) (r : Except String Unit)
    (hopen : s.wsOpen = true) (hne : jsTrim line ≠ "") :
    sends (handle s line r).2 = [⟨"cli_input", jsTrim line⟩] ∧
    (jsTrim line = line → sends (handle s line r).2 = [⟨"cli_input", line⟩]) := by
  have hmain : sends (handle s line r).2 = [⟨"cli_input", jsTrim line⟩] := by
    rcases r with _ | emsg <;>
    · simp only [handle, handleEvents, hopen, hne]
      by_cases h1 : isCheckpointSave (jsSplitSpace (jsTrim line)) <;>
        by_cases h2 : jsTruthy ((jsSplitSpace (jsTrim line))[2]?) <;>
          simp [h1, h2, sends]
  exact ⟨hmain, fun heq => by rw [hmain, heq]⟩

/-- Witness for C5: `"foo bar"` is sent exactly as entered. -/
theorem C5_witness :
    sends (handle (⟨[], some "", "", true⟩ : AppState) "foo bar" (.ok ())).2 =
      [⟨"cli_input", jsTrim "foo bar"⟩] ∧
    (jsTrim "foo bar" = "foo bar" →
      sends (handle (⟨[], some "", "", true⟩ : AppState) "foo bar" (.ok ())).2 =
        [⟨"cli_input", "foo bar"⟩]) :=
  C5_relay_frame (⟨[], some "", "", true⟩ : AppState) "foo bar" (.ok ()) rfl (by decide)

/-- Claim C2: a `checkpoint save <name> <message...>` line handled while
the channel is open produces exactly one `command`-category echo line,
exactly one relay send carrying the command, and exactly one direct
`POST /api/memory` whose body carries the checkpoint content, the tags,
the session id and the user id; on the call's success exactly one
`success`-category line containing the checkpoint name is appended and
the cached memory view is refreshed once. The hypotheses are the code's
own parse of such a line (App.js lines 149-169). -/
theorem C2_checkpoint_save (s : AppState) (line : String)
    (hopen : s.wsOpen = true) (hne : jsTrim line ≠ "")
    (hcp : isCheckpointSave (jsSplitSpace (jsTrim line)) = true)
    (hname : jsTruthy ((jsSplitSpace (jsTrim line))[2]?) = true) :
    appendsOf "command" (handle s line (.ok ())).2 =
      [⟨"command", "Coddy> " ++ jsTrim line⟩] ∧
    sends (handle s line (.ok ())).2 = [⟨"cli_input", jsTrim line⟩] ∧
    posts (handle s line (.ok ())).2 =
      [⟨⟨"checkpoint", (jsSplitSpace (jsTrim line))[2]?.getD "",
          jsOrS (jsTrim (removeQuotes (String.intercalate " " ((jsSplitSpace (jsTrim line)).drop 3))))
            ("Checkpoint " ++ (jsSplitSpace (jsTrim line))[2]?.getD "" ++ " saved.")⟩,
        ["checkpoint", (jsSplitSpace (jsTrim line))[2]?.getD ""],
        "ui_session", "ui_user"⟩] ∧
    appendsOf "success" (handle s line (.ok ())).2 =
      [⟨"success", "Checkpoint \x27" ++ (jsSplitSpace (jsTrim line))[2]?.getD ""
          ++ "\x27 saved via UI API."⟩] ∧
    refreshCount (handle s line (.ok ())).2 = 1 := by
  simp [handle, handleEvents, hopen, hne, hcp, hname,
        appendsOf, appends, sends, posts, refreshCount]

/-- Witness for C2: the spec's own case,
`"checkpoint save v1 initial snapshot"` on an open channel. -/
theorem C2_witness :
    appendsOf "command" (handle (⟨[], some "", "", true⟩ : AppState)
        "checkpoint save v1 initial snapshot" (.ok ())).2 =
      [⟨"command", "Coddy> checkpoint save v1 initial snapshot"⟩] ∧
    sends (handle (⟨[], some "", "", true⟩ : AppState)
        "checkpoint save v1 initial snapshot" (.ok ())).2 =
      [⟨"cli_input", "checkpoint save v1 initial snapshot"⟩] ∧
    posts (handle (⟨[], some "", "", true⟩ : AppState)
        "checkpoint save v1 initial snapshot" (.ok ())).2 =
      [⟨⟨"checkpoint", "v1", "initial snapshot"⟩, ["checkpoint", "v1"],
        "ui_session", "ui_user"⟩] ∧
    appendsOf "success" (handle (⟨[], some "", "", true⟩ : AppState)
        "checkpoint save v1 initial snapshot" (.ok ())).2 =
      [⟨"success", "Checkpoint \x27v1\x27 saved via UI API."⟩] ∧
    refreshCount (handle (⟨[], some "", "", true⟩ : AppState)
        "checkpoint save v1 initial snapshot" (.ok ())).2 = 1 := by
  have h := C2_checkpoint_save (⟨[], some "", "", true⟩ : AppState)
    "checkpoint save v1 initial snapshot" rfl (by decide) (by decide) (by decide)
  exact h

/-- Claim C8, counterexample: when the direct call throws an exception
with message `"boom"`, the appended error line is the preset failure text
`"Error: Failed to save checkpoint 'v1' via UI API."` (the catch at
App.js line 212 prefers `errorMessage`, set at line 183, over
`error.message`), and that text does not contain the exception's
message. -/
theorem C8_counterexample :
    appendsOf "error" (handle (⟨[], some "", "", true⟩ : AppState)
        "checkpoint save v1 snap" (.error "boom")).2 =
      [⟨"error", "Error: Failed to save checkpoint \x27v1\x27 via UI API."⟩] ∧
    ¬ strContains "Error: Failed to save checkpoint \x27v1\x27 via UI API." "boom" := by
  constructor
  · decide
  · show ¬ ("boom".data <:+: "Error: Failed to save checkpoint \x27v1\x27 via UI API.".data)
    decide

/-- Claim C8, amended: an exception from the direct resource call is
caught locally (`handle` is total and the trace simply records the
outcome), exactly one error-category line is appended, but its text is
`"Error: "` followed by the preset failure message naming the checkpoint
— not the exception's message; the exception's message is reported via
the status message `"Command failed: <message>"` instead, and the
channel state is unchanged. -/
theorem C8_direct_call_error (s : AppState) (line emsg : String)
    (hopen : s.wsOpen = true) (hne : jsTrim line ≠ "")
    (hcp : isCheckpointSave (jsSplitSpace (jsTrim line)) = true)
    (hname : jsTruthy ((jsSplitSpace (jsTrim line))[2]?) = true) :
    appendsOf "error" (handle s line (.error emsg)).2 =
      [⟨"error", "Error: " ++ ("Failed to save checkpoint \x27"
          ++ (jsSplitSpace (jsTrim line))[2]?.getD "" ++ "\x27 via UI API.")⟩] ∧
    (handle s line (.error emsg)).1.statusMessage = some ("Command failed: " ++ emsg) ∧
    (handle s line (.error emsg)).1.wsOpen = s.wsOpen := by
  have hfail : ("Failed to save checkpoint \x27"
      ++ (jsSplitSpace (jsTrim line))[2]?.getD "" ++ "\x27 via UI API.") ≠ "" := by
    apply string_append_ne_empty
    rw [String.data_append]
    intro hc
    exact absurd (List.append_eq_nil.mp hc).1 (by decide)
  simp [handle, handleEvents, hopen, hne, hcp, hname,
        appendsOf, appends, run, applyEvent, jsOrS, hfail]

/-- Witness for C8: the amended statement at
`"checkpoint save v1 snap"` with exception message `"boom"`. -/
theorem C8_witness :
    appendsOf "error" (handle (⟨[], some "", "", true⟩ : AppState)
        "checkpoint save v1 snap" (.error "boom")).2 =
      [⟨"error", "Error: Failed to save checkpoint \x27v1\x27 via UI API."⟩] ∧
    (handle (⟨[], some "", "", true⟩ : AppState)
        "checkpoint save v1 snap" (.error "boom")).1.statusMessage =
      some ("Command failed: " ++ "boom") ∧
    (handle (⟨[], some "", "", true⟩ : AppState)
        "checkpoint save v1 snap" (.error "boom")).1.wsOpen =
      (⟨[], some "", "", true⟩ : AppState).wsOpen := by
  have h := C8_direct_call_error (⟨[], some "", "", true⟩ : AppState)
    "checkpoint save v1 snap" "boom" rfl (by decide) (by decide) (by decide)
  exact h

/-- Claim C10: a `checkpoint save` line without a name token, handled on
an open channel, still performs the relay send and the command echo
first, then appends exactly one usage-error line, sets the
invalid-command status, and makes no direct resource call. The trace
equality fixes the order: send, echo, then the usage error. -/
theorem C10_missing_name (s : AppState) (line : String) (r : Except String Unit)
    (hopen : s.wsOpen = true) (hne : jsTrim line ≠ "")
    (hcp : isCheckpointSave (jsSplitSpace (jsTrim line)) = true)
    (hname : jsTruthy ((jsSplitSpace (jsTrim line))[2]?) = false) :
    (handle s line r).2 =
      [.setCommandInput "", .setStatus (some "Executing command..."),
       .send ⟨"cli_input", jsTrim line⟩,
       .append ⟨"command", "Coddy> " ++ jsTrim line⟩,
       .setStatus (some "Command sent to Python CLI for execution."),
       .append ⟨"error", "Usage: checkpoint save <name> [message]"⟩,
       .setStatus (some "Invalid checkpoint command.")] ∧
    posts (handle s line r).2 = [] ∧
    refreshCount (handle s line r).2 = 0 ∧
    (handle s line r).1.statusMessage = some "Invalid checkpoint command." := by
  simp [handle, handleEvents, hopen, hne, hcp, hname,
        posts, refreshCount, run, applyEvent]

/-- Witness for C10: `"checkpoint save"` (no name token) on an open
channel. -/
theorem C10_witness :
    (handle (⟨[], some "", "", true⟩ : AppState) "checkpoint save" (.ok ())).2 =
      [.setCommandInput "", .setStatus (some "Executing command..."),
       .send ⟨"cli_input", jsTrim "checkpoint save"⟩,
       .append ⟨"command", "Coddy> " ++ jsTrim "checkpoint save"⟩,
       .setStatus (some "Command sent to Python CLI for execution."),
       .append ⟨"error", "Usage: checkpoint save <name> [message]"⟩,
       .setStatus (some "Invalid checkpoint command.")] ∧
    posts (handle (⟨[], some "", "", true⟩ : AppState) "checkpoint save" (.ok ())).2 = [] ∧
    refreshCount (handle (⟨[], some "", "", true⟩ : AppState) "checkpoint save" (.ok ())).2 = 0 ∧
    (handle (⟨[], some "", "", true⟩ : AppState) "checkpoint save" (.ok ())).1.statusMessage =
      some "Invalid checkpoint command." :=
  C10_missing_name (⟨[], some "", "", true⟩ : AppState) "checkpoint save" (.ok ())
    rfl (by decide) (by decide) (by decide)

/-- Claim C3: the claim's positive parts hold (one `open → closed`
transition schedules exactly one reconnect timer with the fixed 5000 ms
delay), but its teardown guarantee fails on the code: with a reconnect
timer already pending, the cleanup (App.js lines 85-91) nulls only
`wsRef.current.onclose` and cancels no timer, so when the timer fires a
new connection attempt is made after teardown — the code contradicts its
own comment "Prevent reconnect attempts on intended close". -/
theorem C3_reconnect_after_teardown :
    (wsRun wsInit [.opens 0, .closes 0]).pendingDelays = [5000] ∧
    (wsRun wsInit [.opens 0, .closes 0, .teardown]).tornDown = true ∧
    (wsRun wsInit [.opens 0, .closes 0, .teardown]).pendingDelays = [5000] ∧
    (wsRun wsInit [.opens 0, .closes 0, .teardown, .timerFire]).connectsAfterTeardown = 1 := by
  decide

end Coddy
